import Mathlib

set_option autoImplicit false

/-!
Verification of the face-liveness capture front end.

The repository contains two parallel browser scripts:
* `src/unnamed/part_000` — the live session state machine (states
  MONITORING / AUTHENTICATED / TIMEOUT, `REQUIRED_LIVE_FRAMES = 5`,
  a 1000 ms status debounce, a 10 s session timeout) together with the
  capture-region geometry of its `captureFrame`;
* `src/app.js` — a second implementation (threshold 3, liveness
  confidence 0.6) whose frame-processing body inside `processFrame`
  is entirely commented out; its active parts are `updateUI`,
  `checkFacePosition`, `calculateHeadSizeRatio`, `captureFrame`,
  `processFrame` (guards and error path) and
  `handleSuccessfulAuthentication`.

Both scripts are embedded below; JavaScript numbers are modelled as
rationals (`ℚ`) and timestamps as integers (`Int`, milliseconds).
-/

namespace Part0

/-- `REQUIRED_LIVE_FRAMES` (part_000 line 19). -/
def REQUIRED_LIVE_FRAMES : Nat := 5

/-- `FRAME_INTERVAL` (part_000 line 20), milliseconds. -/
def FRAME_INTERVAL : Int := 200

/-- `SESSION_TIMEOUT` (part_000 line 23), milliseconds. -/
def SESSION_TIMEOUT : Int := 10000

/-- `STATUS_DEBOUNCE_TIME` (part_000 line 36), milliseconds. -/
def STATUS_DEBOUNCE_TIME : Int := 1000

/-- `AUTH_STATE` (part_000 lines 26-30). -/
inductive AuthState
  | monitoring
  | authenticated
  | timeout
deriving DecidableEq

/-- The server response consumed by `updateFacePosition`.  `isError`
models `!result || result.error` (part_000 line 257): a null result or a
response carrying an `error` field.  `liveness_message` is optional
because the field may be absent. -/
structure ServerResult where
  isError : Bool
  is_live : Bool
  liveness_message : Option String
  message : String
  confidence : ℚ
deriving DecidableEq

/-- The visible UI pieces `updateFacePosition` mutates: the CSS classes
of the oval border and the status display, the status / hint texts, and
the number of active progress dots (the page has four dots; see
`Math.min(liveFrameCount, 4)` at line 239). -/
structure UIState where
  ovalAnalyzing : Bool
  ovalSuccess : Bool
  ovalNoFace : Bool
  statusError : Bool
  statusAnalyzing : Bool
  statusSuccess : Bool
  statusText : String
  hintText : String
  activeDots : Nat
deriving DecidableEq

/-- The mutable globals of part_000: `isRunning`, `currentState`,
`liveFrameCount`, `lastStatusUpdate`, whether `authenticationLoop`
holds a pending timer, and whether the tracks of the camera stream have been
stopped (no part_000 code ever stops them). -/
structure State where
  isRunning : Bool
  currentState : AuthState
  liveFrameCount : Nat
  lastStatusUpdate : Int
  loopActive : Bool
  streamStopped : Bool
  ui : UIState
deriving DecidableEq

/-- The multiple-faces message checked at part_000 lines 263 and 271. -/
def MULTIPLE_FACES_MSG : String := "Keep only one face in the oval"

/-- JavaScript `a || b` for an optional string `a`: the empty string is
falsy, so it falls through to `b`. -/
def jsOrStr (a : Option String) (b : String) : String :=
  match a with
  | none => b
  | some s => if s = "" then b else s

/-- The negative branch condition of `updateFacePosition` (line 263):
`!result.is_live || result.liveness_message === "Keep only one face in the oval"`. -/
def isNegativeVerdict (r : ServerResult) : Bool :=
  !r.is_live || (r.liveness_message == some MULTIPLE_FACES_MSG)

/-- `updateFacePosition` (part_000 lines 219-326) with the
`REQUIRED_LIVE_FRAMES` constant as an explicit parameter.
The structure follows the source:
* an error / null result is ignored (line 257);
* a non-live or multiple-faces result (line 263) resets the UI and the
  counter only when `STATUS_DEBOUNCE_TIME` has elapsed since the last
  status update (line 264; the inner `resetUI` of line 223 re-checks the
  same condition against the not-yet-updated `lastStatusUpdate`, so it
  fires whenever the outer check does);
* a live result (line 277) is processed only when half the debounce has
  elapsed; the counter is incremented only while not authenticated
  (line 286), and reaching the threshold (line 290) transitions to
  AUTHENTICATED, applies the success UI and clears the loop timer. -/
def updateFacePositionWith (required : Nat) (s : State) (result : ServerResult)
    (currentTime : Int) : State :=
  if result.isError then s
  else if isNegativeVerdict result then
    if STATUS_DEBOUNCE_TIME ≤ currentTime - s.lastStatusUpdate then
      { s with
        liveFrameCount := 0
        lastStatusUpdate := currentTime
        ui := { ovalAnalyzing := false, ovalSuccess := false, ovalNoFace := true
                statusError := true, statusAnalyzing := false, statusSuccess := false
                statusText := jsOrStr result.liveness_message result.message
                hintText := if result.liveness_message == some MULTIPLE_FACES_MSG then
                    "Only one person should be in frame" else ""
                activeDots := 0 } }
    else s
  else
    if STATUS_DEBOUNCE_TIME / 2 ≤ currentTime - s.lastStatusUpdate then
      if s.currentState = AuthState.authenticated then
        { s with
          lastStatusUpdate := currentTime
          ui := { s.ui with
                  ovalAnalyzing := true, ovalNoFace := false
                  statusAnalyzing := true
                  statusText := jsOrStr result.liveness_message result.message } }
      else if required ≤ s.liveFrameCount + 1 then
        { s with
          liveFrameCount := s.liveFrameCount + 1
          lastStatusUpdate := currentTime
          currentState := AuthState.authenticated
          loopActive := false
          ui := { ovalAnalyzing := false, ovalSuccess := true, ovalNoFace := false
                  statusError := false, statusAnalyzing := false, statusSuccess := true
                  statusText := "Welcome!", hintText := "Face verified successfully"
                  activeDots := 4 } }
      else
        { s with
          liveFrameCount := s.liveFrameCount + 1
          lastStatusUpdate := currentTime
          ui := { s.ui with
                  ovalAnalyzing := true, ovalNoFace := false
                  statusError := false, statusAnalyzing := true
                  statusSuccess := false, statusText := "Face Detected"
                  hintText := "Verifying..."
                  activeDots := min (s.liveFrameCount + 1) 4 } }
    else s

/-- `updateFacePosition` at the source constant `REQUIRED_LIVE_FRAMES = 5`. -/
def updateFacePosition : State → ServerResult → Int → State :=
  updateFacePositionWith REQUIRED_LIVE_FRAMES

/-- `handleTimeout` (part_000 lines 118-134): force TIMEOUT, stop the
loop flag and clear the pending loop timer. -/
def handleTimeout (s : State) : State :=
  { s with currentState := AuthState.timeout
           isRunning := false
           loopActive := false }

/-- The tail of `startAuthentication` after the `/authenticate` response
arrives (part_000 lines 504-538): a response with an `error` field just
schedules a retry; otherwise `updateFacePosition` runs unconditionally —
there is no `isRunning` or timeout re-check after the `await` — and the
next cycle is scheduled only while running and not authenticated. -/
def handleResponse (s : State) (result : ServerResult) (currentTime : Int) : State :=
  if result.isError then { s with loopActive := true }
  else
    let s1 := updateFacePosition s result currentTime
    if s1.isRunning && !(s1.currentState = AuthState.authenticated) then
      { s1 with loopActive := true }
    else s1

/-- The `startAuthentication` path where `captureFrame` returned `null`
(part_000 lines 474-479): schedule a retry and return; nothing is sent
to the server and the session state is untouched.  The second component
records whether a frame was sent to the `/authenticate` endpoint. -/
def cycleCaptureNull (s : State) : State × Bool :=
  ({ s with loopActive := true }, false)

/-- Session state right after `initializeCamera` succeeds (part_000
lines 177-182): running, MONITORING, zero counter, loop started, the
initial status message shown; `lastStatusUpdate` still holds its
initial value 0 (line 35). -/
def initState : State :=
  { isRunning := true
    currentState := AuthState.monitoring
    liveFrameCount := 0
    lastStatusUpdate := 0
    loopActive := true
    streamStopped := false
    ui := { ovalAnalyzing := false, ovalSuccess := false, ovalNoFace := false
            statusError := false, statusAnalyzing := false, statusSuccess := false
            statusText := "Position your face in the oval"
            hintText := ""
            activeDots := 0 } }

/-- Feed a list of timestamped server results through
`updateFacePositionWith required`, one per capture cycle. -/
def feedWith (required : Nat) : State → List (ServerResult × Int) → State
  | s, [] => s
  | s, (r, t) :: rest => feedWith required (updateFacePositionWith required s r t) rest

/-- A DOM rectangle as returned by `getBoundingClientRect`. -/
structure DomRect where
  left : ℚ
  top : ℚ
  width : ℚ
  height : ℚ
deriving DecidableEq

/-- The integer `ovalGuide` region sent to the server. -/
structure RegionZ where
  x : Int
  y : Int
  width : Int
  height : Int
deriving DecidableEq

/-- JavaScript `Math.round`: round half toward positive infinity. -/
def jround (q : ℚ) : Int := ⌊q + 1 / 2⌋

/-- The `ovalData` geometry computed by `captureFrame` (part_000 lines
357-414) from the video intrinsic dimensions, the on-screen rectangle
of the video element and the on-screen rectangle of the oval guide:
scale and letterbox offsets (lines 372-389), target oval size from the
aspect ratio (lines 394-402), the 85 % clamps (lines 405-406) and the
rounded, non-negative position (lines 409-414). -/
def captureRegion (vw vh : ℚ) (videoRect ovalRect : DomRect) : RegionZ :=
  let videoAspect := vw / vh
  let containerAspect := videoRect.width / videoRect.height
  let scale := min (vw / videoRect.width) (vh / videoRect.height)
  let xOffset : ℚ :=
    if videoAspect < containerAspect then
      (videoRect.width - videoRect.height * videoAspect) / 2
    else 0
  let yOffset : ℚ :=
    if videoAspect < containerAspect then 0
    else (videoRect.height - videoRect.width / videoAspect) / 2
  let targetOvalWidth : ℚ :=
    if 1 ≤ videoAspect then vh * (75 / 100) * (75 / 100)
    else vw * (75 / 100)
  let targetOvalHeight : ℚ :=
    if 1 ≤ videoAspect then vh * (75 / 100)
    else vw * (75 / 100) * (133 / 100)
  let clampedWidth := min targetOvalWidth (vw * (85 / 100))
  let clampedHeight := min targetOvalHeight (vh * (85 / 100))
  { x := max 0 (jround ((ovalRect.left - videoRect.left - xOffset) * scale))
    y := max 0 (jround ((ovalRect.top - videoRect.top - yOffset) * scale))
    width := jround clampedWidth
    height := jround clampedHeight }

end Part0

namespace App

/-- `CONFIG.FRAMES_REQUIRED` (app.js line 3). -/
def FRAMES_REQUIRED : Nat := 3

/-- `CONFIG.MIN_FRAME_INTERVAL` (app.js line 4), milliseconds. -/
def MIN_FRAME_INTERVAL : Int := 200

/-- `CONFIG.RETRY_DELAY` (app.js line 6), milliseconds. -/
def RETRY_DELAY : Int := 1000

/-- `CONFIG.SESSION_TIMEOUT` (app.js line 7), milliseconds. -/
def SESSION_TIMEOUT : Int := 30000

/-- `CONFIG.MIN_LIVENESS_CONFIDENCE` (app.js line 9). -/
def MIN_LIVENESS_CONFIDENCE : ℚ := 6 / 10

/-- `AUTH_STATE` (app.js lines 21-26). -/
inductive AuthState
  | waiting
  | analyzing
  | authenticated
  | error
deriving DecidableEq

/-- The app.js global `state` object (lines 57-72), restricted to the
fields the code reads or writes: the run/processing flags, the phase,
the frame counter, timestamps, the oval visual state, the displayed
texts, whether a camera stream was acquired and whether its tracks have
been stopped. -/
structure State where
  isRunning : Bool
  isProcessing : Bool
  currentState : AuthState
  framesCollected : Nat
  lastProcessedTime : Int
  lastUIUpdate : Int
  ovalCurrent : String
  ovalLastUpdate : Int
  statusText : String
  hintText : String
  hasStream : Bool
  streamStopped : Bool
deriving DecidableEq

/-- JavaScript `String.prototype.includes`. -/
def jsIncludes (s pat : String) : Bool := 2 ≤ (s.splitOn pat).length

/-- `updateUI` (app.js lines 216-281): every request is ignored while
the phase is already AUTHENTICATED (line 217); any request made less
than 300 ms after the last applied update is ignored (line 222) — the
target state, AUTHENTICATED included, is not consulted before this
check; otherwise the oval state, the texts, the phase and the update
timestamps are applied. -/
def updateUI (s : State) (newState : AuthState) (message hint : String)
    (now : Int) : State :=
  if s.currentState = AuthState.authenticated then s
  else if now - s.lastUIUpdate < 300 then s
  else
    let newOvalState :=
      match newState with
      | AuthState.analyzing => "analyzing"
      | AuthState.authenticated => "success"
      | AuthState.error => "error"
      | AuthState.waiting =>
          if jsIncludes message "Processing" then "detected" else "no-face"
    { s with
      lastUIUpdate := now
      ovalCurrent := newOvalState
      ovalLastUpdate := now
      statusText := if message = "" then "Position your face in the oval" else message
      hintText := hint
      currentState := newState }

/-- A face / oval rectangle in video pixel coordinates. -/
structure Rect where
  x : ℚ
  y : ℚ
  width : ℚ
  height : ℚ
deriving DecidableEq

/-- The exact value of the IEEE-754 double `Math.PI`
(884279719003555 · 2⁻⁴⁸). -/
def MathPI : ℚ := 884279719003555 / 281474976710656

/-- `calculateHeadSizeRatio` (app.js lines 284-296): 0 when `faceRect`
is absent, otherwise face area over the elliptic oval area. -/
def calculateHeadSizeRatio (ovalData : Rect) (faceRect : Option Rect) : ℚ :=
  match faceRect with
  | none => 0
  | some f =>
      let ovalArea := MathPI * (ovalData.width / 2) * (ovalData.height / 2)
      f.width * f.height / ovalArea

/-- The result record of `checkFacePosition`. -/
structure PositionCheck where
  isValid : Bool
  message : String
deriving DecidableEq

/-- `checkFacePosition` (app.js lines 299-383): no `faceRect` is an
invalid position with the no-face message; otherwise centre offsets are
compared against 50 % of the oval half-extents and the face/oval area
ratio against 0.15 and 0.85. -/
def checkFacePosition (ovalData : Rect) (faceRect : Option Rect) : PositionCheck :=
  match faceRect with
  | none => { isValid := false, message := "No face detected" }
  | some f =>
      let ovalCenterX := ovalData.x + ovalData.width / 2
      let ovalCenterY := ovalData.y + ovalData.height / 2
      let faceCenterX := f.x + f.width / 2
      let faceCenterY := f.y + f.height / 2
      let xDistancePercent := |faceCenterX - ovalCenterX| / (ovalData.width / 2) * 100
      let yDistancePercent := |faceCenterY - ovalCenterY| / (ovalData.height / 2) * 100
      let ovalArea := MathPI * (ovalData.width / 2) * (ovalData.height / 2)
      let faceArea := f.width * f.height
      let areaRat := faceArea / ovalArea
      if 50 < xDistancePercent then
        { isValid := false
          message := if faceCenterX < ovalCenterX then "Move your face right"
            else "Move your face left" }
      else if 50 < yDistancePercent then
        { isValid := false
          message := if faceCenterY < ovalCenterY then "Move your face down"
            else "Move your face up" }
      else if areaRat < 15 / 100 then
        { isValid := false, message := "Move closer to the camera" }
      else if 85 / 100 < areaRat then
        { isValid := false, message := "Move back from the camera" }
      else { isValid := true, message := "Face position is good" }

/-- Whether the frame capture step of a cycle succeeded or threw
(`captureFrame`, app.js lines 386-452, throws when the video intrinsic
dimensions are zero or drawing fails). -/
inductive CaptureOutcome
  | success
  | failure
deriving DecidableEq

/-- Observable per-cycle effects of `processFrame`: whether a frame was
sent to the remote service, and the delay of a scheduled next cycle if
one was scheduled. -/
structure CycleEffects where
  sentToServer : Bool
  scheduledDelay : Option Int
deriving DecidableEq

/-- `processFrame` (app.js lines 455-589).  Active code only: the
re-entrancy guard (line 456), the `isProcessing` flag, the minimum
frame-interval skip (line 466), and then — because the entire transport
and state-machine body (lines 478-577) is commented out — a successful
capture does nothing further, while a capture failure runs the catch
block (lines 579-588): reset `framesCollected`, show the ERROR UI,
clear `isProcessing` and schedule a retry. -/
def processFrame (s : State) (cap : CaptureOutcome) (now : Int) :
    State × CycleEffects :=
  if !s.isRunning || s.isProcessing then (s, { sentToServer := false, scheduledDelay := none })
  else
    let s0 : State := { s with isProcessing := true }
    if now - s0.lastProcessedTime < MIN_FRAME_INTERVAL then
      let s1 : State := { s0 with isProcessing := false }
      ( s1
      , { sentToServer := false
          scheduledDelay := if s1.isRunning then some MIN_FRAME_INTERVAL else none } )
    else
      match cap with
      | CaptureOutcome.success =>
          (s0, { sentToServer := false, scheduledDelay := none })
      | CaptureOutcome.failure =>
          let s1 : State := { s0 with framesCollected := 0 }
          let s2 := updateUI s1 AuthState.error "Error processing frame" "" now
          let s3 : State := { s2 with isProcessing := false }
          ( s3
          , { sentToServer := false
              scheduledDelay :=
                if s3.isRunning && !(s3.currentState = AuthState.authenticated) then
                  some RETRY_DELAY
                else none } )

/-- `handleSuccessfulAuthentication` (app.js lines 592-617): no-op on a
falsy name; otherwise stop the loop flags, apply the welcome UI and stop
the tracks of the camera stream when a stream is held. -/
def handleSuccessfulAuthentication (s : State) (name : String) (now : Int) : State :=
  if name = "" then s
  else
    let firstName := (name.splitOn " ").headD ""
    let s1 : State := { s with isRunning := false, isProcessing := false }
    let s2 := updateUI s1 AuthState.authenticated ("Welcome, " ++ firstName ++ "!") "" now
    if s2.hasStream then { s2 with streamStopped := true } else s2

end App

/-! Concrete fixtures used by the scenario theorems, the witnesses and
the counterexamples. -/

/-- A live server response with confidence 0.8. -/
def live08 : Part0.ServerResult :=
  { isError := false, is_live := true, liveness_message := none
    message := "Face is live", confidence := 8 / 10 }

/-- A live server response with confidence 0.7. -/
def live07 : Part0.ServerResult :=
  { isError := false, is_live := true, liveness_message := none
    message := "Face is live", confidence := 7 / 10 }

/-- A live server response with confidence 0.9. -/
def live09 : Part0.ServerResult :=
  { isError := false, is_live := true, liveness_message := none
    message := "Face is live", confidence := 9 / 10 }

/-- A non-live server response (confidence 0.3). -/
def notLive03 : Part0.ServerResult :=
  { isError := false, is_live := false, liveness_message := some "Face is not live"
    message := "Face is not live", confidence := 3 / 10 }

/-- A part_000 session that has just authenticated: AUTHENTICATED with
the counter still at 5 (nothing resets it on authentication) and the
last status update at time 1000. -/
def part0AuthDone : Part0.State :=
  { Part0.initState with
    currentState := Part0.AuthState.authenticated
    liveFrameCount := 5
    lastStatusUpdate := 1000 }

/-- A part_000 session mid-run with two consecutive live frames and the
last status update at time 1000. -/
def part0Count2 : Part0.State :=
  { Part0.initState with liveFrameCount := 2, lastStatusUpdate := 1000 }

/-- A part_000 session one live frame short of the threshold, last
status update at time 0. -/
def part0Count4 : Part0.State :=
  { Part0.initState with liveFrameCount := 4 }

/-- A part_000 session one live frame short of the threshold, last
status update at time 100, camera stream never released. -/
def part0Count4b : Part0.State :=
  { Part0.initState with liveFrameCount := 4, lastStatusUpdate := 100 }

/-- The app.js session right after `startCamera` succeeded: running,
WAITING, a camera stream held, nothing processed yet. -/
def appReady : App.State :=
  { isRunning := true
    isProcessing := false
    currentState := App.AuthState.waiting
    framesCollected := 0
    lastProcessedTime := 0
    lastUIUpdate := 0
    ovalCurrent := "no-face"
    ovalLastUpdate := 0
    statusText := "Position your face in the oval"
    hintText := ""
    hasStream := true
    streamStopped := false }

/-- An app.js session whose last applied UI update happened at time 1000
and displayed the message "first". -/
def appFirstMsg : App.State :=
  { appReady with statusText := "first", lastUIUpdate := 1000 }

/-- An app.js session mid-run with two collected frames. -/
def appMid : App.State :=
  { appReady with framesCollected := 2 }

/-! Helper lemmas shared by the claim theorems. -/

/-- A live, non-error result processed at least half a debounce after
the last status update, in a non-authenticated state: the counter is
incremented, the status timestamp moves to the current time, and the
phase / status classes depend only on whether the incremented counter
reaches the threshold. -/
theorem part0_live_step (required : Nat) (s : Part0.State) (r : Part0.ServerResult)
    (t : Int) (herr : r.isError = false) (hneg : Part0.isNegativeVerdict r = false)
    (htime : Part0.STATUS_DEBOUNCE_TIME / 2 ≤ t - s.lastStatusUpdate)
    (hauth : ¬s.currentState = Part0.AuthState.authenticated) :
    (Part0.updateFacePositionWith required s r t).liveFrameCount = s.liveFrameCount + 1 ∧
    (Part0.updateFacePositionWith required s r t).lastStatusUpdate = t ∧
    (Part0.updateFacePositionWith required s r t).currentState =
      (if required ≤ s.liveFrameCount + 1 then Part0.AuthState.authenticated
        else s.currentState) ∧
    (Part0.updateFacePositionWith required s r t).ui.statusAnalyzing =
      (if required ≤ s.liveFrameCount + 1 then false else true) ∧
    (Part0.updateFacePositionWith required s r t).ui.statusSuccess =
      (if required ≤ s.liveFrameCount + 1 then true else false) := by
  unfold Part0.updateFacePositionWith
  rw [herr, hneg]
  simp only [Bool.false_eq_true, if_false]
  rw [if_pos htime, if_neg hauth]
  split_ifs <;> simp_all

/-- `updateUI` requested within the 300 ms debounce window changes
nothing, whatever the target state. -/
theorem updateUI_debounced (s : App.State) (ns : App.AuthState) (m hi : String)
    (now : Int) (ht : now - s.lastUIUpdate < 300) :
    App.updateUI s ns m hi now = s := by
  unfold App.updateUI
  split_ifs <;> rfl

/-- `updateUI` applied outside the debounce window while not
authenticated: the new phase, message and update timestamp land. -/
theorem updateUI_applied (s : App.State) (ns : App.AuthState) (m hi : String) (now : Int)
    (hna : ¬s.currentState = App.AuthState.authenticated)
    (ht : ¬now - s.lastUIUpdate < 300) :
    (App.updateUI s ns m hi now).currentState = ns ∧
    (App.updateUI s ns m hi now).statusText =
      (if m = "" then "Position your face in the oval" else m) ∧
    (App.updateUI s ns m hi now).lastUIUpdate = now := by
  unfold App.updateUI
  rw [if_neg hna, if_neg ht]
  exact ⟨rfl, rfl, rfl⟩

/-- `updateUI` never touches the camera stream handle. -/
theorem updateUI_hasStream (s : App.State) (ns : App.AuthState) (m hi : String)
    (now : Int) : (App.updateUI s ns m hi now).hasStream = s.hasStream := by
  unfold App.updateUI
  split_ifs <;> rfl

/-! Claim theorems. -/

/-- C1 (counterexample): at the actual capture cadence — one verdict per
`FRAME_INTERVAL = 200` ms cycle — feeding `[Live(0.8), Live(0.7),
Live(0.9)]` with required-live-frames = 3 does NOT yield a final counter
of 3 or reach Authenticated: the positive debounce
(`STATUS_DEBOUNCE_TIME / 2 = 500` ms, part_000 line 277) swallows the
second and third verdicts, so the counter ends at 1 and the phase stays
MONITORING. -/
theorem claim_C1_cex :
    (Part0.feedWith 3 Part0.initState
      [(live08, 1000), (live07, 1200), (live09, 1400)]).liveFrameCount = 1 ∧
    (Part0.feedWith 3 Part0.initState
      [(live08, 1000), (live07, 1200), (live09, 1400)]).currentState =
      Part0.AuthState.monitoring := by
  decide

/-- C1 (amended): starting in MONITORING with counter 0 and
required-live-frames = 3, if consecutive Live verdicts arrive at least
500 ms (= `STATUS_DEBOUNCE_TIME / 2`) apart, then feeding
`[Live(0.8), Live(0.7), Live(0.9)]` gives counters 1, 2, 3; the machine
has no distinct Analyzing phase value, so `currentState` stays
MONITORING after the first two verdicts while the status display shows
the analyzing style, and the third verdict reaches the threshold:
AUTHENTICATED with the success style and a final counter of exactly 3. -/
theorem claim_C1 (s : Part0.State) (t1 t2 t3 : Int)
    (hphase : s.currentState = Part0.AuthState.monitoring)
    (hcount : s.liveFrameCount = 0)
    (h1 : 500 ≤ t1 - s.lastStatusUpdate)
    (h2 : 500 ≤ t2 - t1)
    (h3 : 500 ≤ t3 - t2) :
    (Part0.updateFacePositionWith 3 s live08 t1).liveFrameCount = 1 ∧
    (Part0.updateFacePositionWith 3 s live08 t1).currentState =
      Part0.AuthState.monitoring ∧
    (Part0.updateFacePositionWith 3 s live08 t1).ui.statusAnalyzing = true ∧
    (Part0.updateFacePositionWith 3
        (Part0.updateFacePositionWith 3 s live08 t1) live07 t2).liveFrameCount = 2 ∧
    (Part0.updateFacePositionWith 3
        (Part0.updateFacePositionWith 3 s live08 t1) live07 t2).currentState =
      Part0.AuthState.monitoring ∧
    (Part0.updateFacePositionWith 3
        (Part0.updateFacePositionWith 3 s live08 t1) live07 t2).ui.statusAnalyzing =
      true ∧
    (Part0.updateFacePositionWith 3
        (Part0.updateFacePositionWith 3
          (Part0.updateFacePositionWith 3 s live08 t1) live07 t2) live09
        t3).liveFrameCount = 3 ∧
    (Part0.updateFacePositionWith 3
        (Part0.updateFacePositionWith 3
          (Part0.updateFacePositionWith 3 s live08 t1) live07 t2) live09
        t3).currentState = Part0.AuthState.authenticated ∧
    (Part0.updateFacePositionWith 3
        (Part0.updateFacePositionWith 3
          (Part0.updateFacePositionWith 3 s live08 t1) live07 t2) live09
        t3).ui.statusSuccess = true := by
  have hd : Part0.STATUS_DEBOUNCE_TIME / 2 = 500 := by decide
  obtain ⟨e1c, e1t, e1p, e1a, e1s⟩ :=
    part0_live_step 3 s live08 t1 rfl rfl (by rw [hd]; omega)
      (by rw [hphase]; simp)
  rw [hcount] at e1c e1p e1a
  norm_num at e1c e1p e1a
  rw [hphase] at e1p
  obtain ⟨e2c, e2t, e2p, e2a, e2s⟩ :=
    part0_live_step 3 (Part0.updateFacePositionWith 3 s live08 t1) live07 t2 rfl rfl
      (by rw [hd, e1t]; omega) (by rw [e1p]; simp)
  rw [e1c] at e2c e2p e2a
  norm_num at e2c e2p e2a
  rw [e1p] at e2p
  obtain ⟨e3c, e3t, e3p, e3a, e3s⟩ :=
    part0_live_step 3
      (Part0.updateFacePositionWith 3
        (Part0.updateFacePositionWith 3 s live08 t1) live07 t2) live09 t3 rfl rfl
      (by rw [hd, e2t]; omega) (by rw [e2p]; simp)
  rw [e2c] at e3c e3p e3s
  norm_num at e3c e3p e3s
  exact ⟨e1c, e1p, e1a, e2c, e2p, e2a, e3c, e3p, e3s⟩

/-- C1 (witness): the amended scenario at the initial session state with
verdicts at times 1000, 1500, 2000. -/
theorem claim_C1_witness :
    (Part0.initState.currentState = Part0.AuthState.monitoring ∧
      Part0.initState.liveFrameCount = 0 ∧
      (500 : Int) ≤ 1000 - Part0.initState.lastStatusUpdate ∧
      (500 : Int) ≤ 1500 - 1000 ∧ (500 : Int) ≤ 2000 - 1500) ∧
    ((Part0.updateFacePositionWith 3 Part0.initState live08 1000).liveFrameCount = 1 ∧
      (Part0.updateFacePositionWith 3 Part0.initState live08 1000).currentState =
        Part0.AuthState.monitoring ∧
      (Part0.updateFacePositionWith 3 Part0.initState live08 1000).ui.statusAnalyzing =
        true ∧
      (Part0.updateFacePositionWith 3
          (Part0.updateFacePositionWith 3 Part0.initState live08 1000) live07
          1500).liveFrameCount = 2 ∧
      (Part0.updateFacePositionWith 3
          (Part0.updateFacePositionWith 3 Part0.initState live08 1000) live07
          1500).currentState = Part0.AuthState.monitoring ∧
      (Part0.updateFacePositionWith 3
          (Part0.updateFacePositionWith 3 Part0.initState live08 1000) live07
          1500).ui.statusAnalyzing = true ∧
      (Part0.updateFacePositionWith 3
          (Part0.updateFacePositionWith 3
            (Part0.updateFacePositionWith 3 Part0.initState live08 1000) live07 1500)
          live09 2000).liveFrameCount = 3 ∧
      (Part0.updateFacePositionWith 3
          (Part0.updateFacePositionWith 3
            (Part0.updateFacePositionWith 3 Part0.initState live08 1000) live07 1500)
          live09 2000).currentState = Part0.AuthState.authenticated ∧
      (Part0.updateFacePositionWith 3
          (Part0.updateFacePositionWith 3
            (Part0.updateFacePositionWith 3 Part0.initState live08 1000) live07 1500)
          live09 2000).ui.statusSuccess = true) :=
  ⟨⟨rfl, rfl, by decide, by decide, by decide⟩,
    claim_C1 Part0.initState 1000 1500 2000 rfl rfl (by decide) (by decide) (by decide)⟩

/-- C2 (counterexample): with the phase already AUTHENTICATED (counter
frozen at 5), processing a non-live verdict 1500 ms after the last
status update resets `liveFrameCount` to 0 — the terminal state does
not freeze the counter (part_000 line 223: the inner `resetUI` never
checks `currentState`). -/
theorem claim_C2_cex :
    part0AuthDone.currentState = Part0.AuthState.authenticated ∧
    part0AuthDone.liveFrameCount = 5 ∧
    (Part0.updateFacePosition part0AuthDone notLive03 2500).liveFrameCount = 0 ∧
    (Part0.updateFacePosition part0AuthDone notLive03 2500).currentState =
      Part0.AuthState.authenticated := by
  decide

/-- C2 (amended): once AUTHENTICATED the phase never changes under
`updateFacePosition`, and app.js `updateUI` ignores every request; the
counter is left unchanged by every input EXCEPT a non-error, non-live
verdict arriving at least `STATUS_DEBOUNCE_TIME` after the last status
update, which still resets it to 0. -/
theorem claim_C2 (s : Part0.State) (r : Part0.ServerResult) (t : Int)
    (a : App.State) (ns : App.AuthState) (m hi : String) (now : Int)
    (hauth : s.currentState = Part0.AuthState.authenticated)
    (hauthA : a.currentState = App.AuthState.authenticated) :
    (Part0.updateFacePosition s r t).currentState = Part0.AuthState.authenticated ∧
    ((Part0.updateFacePosition s r t).liveFrameCount = s.liveFrameCount ∨
      (r.isError = false ∧ Part0.isNegativeVerdict r = true ∧
        Part0.STATUS_DEBOUNCE_TIME ≤ t - s.lastStatusUpdate ∧
        (Part0.updateFacePosition s r t).liveFrameCount = 0)) ∧
    App.updateUI a ns m hi now = a := by
  refine ⟨?_, ?_, ?_⟩
  · unfold Part0.updateFacePosition Part0.updateFacePositionWith
    split_ifs <;> simp_all
  · unfold Part0.updateFacePosition Part0.updateFacePositionWith
    split_ifs <;> simp_all
  · unfold App.updateUI
    rw [if_pos hauthA]

/-- C2 (witness): the amended statement at the freshly authenticated
part_000 state and a non-live verdict at time 2500, and at an
authenticated app.js state. -/
theorem claim_C2_witness :
    (part0AuthDone.currentState = Part0.AuthState.authenticated ∧
      { appReady with
        currentState := App.AuthState.authenticated : App.State }.currentState =
        App.AuthState.authenticated) ∧
    ((Part0.updateFacePosition part0AuthDone notLive03 2500).currentState =
        Part0.AuthState.authenticated ∧
      ((Part0.updateFacePosition part0AuthDone notLive03 2500).liveFrameCount =
          part0AuthDone.liveFrameCount ∨
        (notLive03.isError = false ∧ Part0.isNegativeVerdict notLive03 = true ∧
          Part0.STATUS_DEBOUNCE_TIME ≤ 2500 - part0AuthDone.lastStatusUpdate ∧
          (Part0.updateFacePosition part0AuthDone notLive03 2500).liveFrameCount = 0)) ∧
      App.updateUI
          { appReady with currentState := App.AuthState.authenticated }
          App.AuthState.waiting "x" "" 99999 =
        { appReady with currentState := App.AuthState.authenticated }) :=
  ⟨⟨rfl, rfl⟩,
    claim_C2 part0AuthDone notLive03 2500
      { appReady with currentState := App.AuthState.authenticated }
      App.AuthState.waiting "x" "" 99999 rfl rfl⟩

/-- C3 (counterexample): a non-live verdict received 500 ms after the
last status update — inside the `STATUS_DEBOUNCE_TIME = 1000` ms
window — does NOT reset the counter: it stays at 2 instead of being
reset to exactly 0 upon processing that frame. -/
theorem claim_C3_cex :
    Part0.isNegativeVerdict notLive03 = true ∧
    part0Count2.liveFrameCount = 2 ∧
    (Part0.updateFacePosition part0Count2 notLive03 1500).liveFrameCount = 2 := by
  decide

/-- C3 (amended): a non-error, non-live verdict resets the counter to
exactly 0 only when at least `STATUS_DEBOUNCE_TIME` has elapsed since
the last status update; on every other frame (live, error, or a
non-live frame inside the debounce window) the counter never
decreases. -/
theorem claim_C3 (s : Part0.State) (r : Part0.ServerResult) (t : Int) :
    ((r.isError = false ∧ Part0.isNegativeVerdict r = true ∧
        Part0.STATUS_DEBOUNCE_TIME ≤ t - s.lastStatusUpdate) →
      (Part0.updateFacePosition s r t).liveFrameCount = 0) ∧
    (¬(r.isError = false ∧ Part0.isNegativeVerdict r = true ∧
        Part0.STATUS_DEBOUNCE_TIME ≤ t - s.lastStatusUpdate) →
      s.liveFrameCount ≤ (Part0.updateFacePosition s r t).liveFrameCount) := by
  unfold Part0.updateFacePosition Part0.updateFacePositionWith
  constructor
  · rintro ⟨h1, h2, h3⟩
    split_ifs <;> simp_all
  · intro hn
    split_ifs <;> simp_all

/-- C3 (witness): the reset arm at a non-live verdict past the debounce
window (time 2500), and the no-decrease arm at a non-live verdict inside
the window (time 1200). -/
theorem claim_C3_witness :
    (Part0.updateFacePosition part0Count2 notLive03 2500).liveFrameCount = 0 ∧
    part0Count2.liveFrameCount ≤
      (Part0.updateFacePosition part0Count2 notLive03 1200).liveFrameCount :=
  ⟨(claim_C3 part0Count2 notLive03 2500).1 ⟨rfl, rfl, by decide⟩,
    (claim_C3 part0Count2 notLive03 1200).2 (by decide)⟩

/-- C4 (code evaluated at the failing input): the session timer fires
with the counter at 4 while an `/authenticate` request is in flight;
`handleTimeout` sets TIMEOUT and halts the loop, but when the in-flight
response (a live verdict, past the positive debounce) arrives,
`startAuthentication` still calls `updateFacePosition` — there is no
post-await guard and the increment guard of line 286 only excludes
AUTHENTICATED, not TIMEOUT — so the counter advances to 5 and the phase
flips from TIMEOUT to AUTHENTICATED after the timeout already fired. -/
theorem claim_C4 :
    (Part0.handleTimeout part0Count4).currentState = Part0.AuthState.timeout ∧
    (Part0.handleTimeout part0Count4).isRunning = false ∧
    (Part0.handleTimeout part0Count4).loopActive = false ∧
    (Part0.handleResponse (Part0.handleTimeout part0Count4) live09 1000).liveFrameCount =
      5 ∧
    (Part0.handleResponse (Part0.handleTimeout part0Count4) live09 1000).currentState =
      Part0.AuthState.authenticated := by
  decide

/-- C5 (counterexample): the produced region is not contained in the
video frame and can exceed the 85 % bound.  With a 640×480 video filling
a 640×480 display and the oval guide at screen x = 600, the region is
x = 600 with width 270, so x + width = 870 > 640.  With a 999×1001
video filling its display, the clamped height 850.85 rounds to 851,
exceeding 85 % of 1001 (= 850.85). -/
theorem claim_C5_cex :
    ¬((Part0.captureRegion 640 480 ⟨0, 0, 640, 480⟩ ⟨600, 0, 100, 100⟩).x +
        (Part0.captureRegion 640 480 ⟨0, 0, 640, 480⟩ ⟨600, 0, 100, 100⟩).width ≤
        640) ∧
    ¬(((Part0.captureRegion 999 1001 ⟨0, 0, 999, 1001⟩ ⟨0, 0, 100, 100⟩).height : ℚ) ≤
        (85 / 100) * 1001) := by
  constructor
  · norm_num [Part0.captureRegion, Part0.jround, min_def, max_def]
  · norm_num [Part0.captureRegion, Part0.jround, min_def, max_def]

/-- C5 (amended): for every video dimension pair and every display /
guide rectangle, the region has non-negative x and y and its width and
height never exceed the ROUNDED 85 % bounds `round(0.85·vw)` and
`round(0.85·vh)`; containment of the right and bottom edges inside the
video frame does not hold in general (the position comes from the
on-screen guide while the size comes from the video dimensions). -/
theorem claim_C5 (vw vh : ℚ) (videoRect ovalRect : Part0.DomRect) :
    0 ≤ (Part0.captureRegion vw vh videoRect ovalRect).x ∧
    0 ≤ (Part0.captureRegion vw vh videoRect ovalRect).y ∧
    (Part0.captureRegion vw vh videoRect ovalRect).width ≤
      Part0.jround (vw * (85 / 100)) ∧
    (Part0.captureRegion vw vh videoRect ovalRect).height ≤
      Part0.jround (vh * (85 / 100)) := by
  refine ⟨le_max_left _ _, le_max_left _ _, ?_, ?_⟩
  · exact Int.floor_le_floor (add_le_add_right (min_le_right _ _) _)
  · exact Int.floor_le_floor (add_le_add_right (min_le_right _ _) _)

/-- C5 (witness): the amended bounds at the 640×480 configuration. -/
theorem claim_C5_witness :
    0 ≤ (Part0.captureRegion 640 480 ⟨0, 0, 640, 480⟩ ⟨600, 0, 100, 100⟩).x ∧
    0 ≤ (Part0.captureRegion 640 480 ⟨0, 0, 640, 480⟩ ⟨600, 0, 100, 100⟩).y ∧
    (Part0.captureRegion 640 480 ⟨0, 0, 640, 480⟩ ⟨600, 0, 100, 100⟩).width ≤
      Part0.jround (640 * (85 / 100)) ∧
    (Part0.captureRegion 640 480 ⟨0, 0, 640, 480⟩ ⟨600, 0, 100, 100⟩).height ≤
      Part0.jround (480 * (85 / 100)) :=
  claim_C5 640 480 ⟨0, 0, 640, 480⟩ ⟨600, 0, 100, 100⟩

/-- C6 (counterexample): a transition INTO Authenticated requested
200 ms after the last applied change (inside the 300 ms debounce
window) is suppressed by app.js `updateUI` — the state is returned
unchanged and the phase stays WAITING — contradicting the claimed
exception that Authenticated transitions are never suppressed. -/
theorem claim_C6_cex :
    App.updateUI appFirstMsg App.AuthState.authenticated "Welcome" "" 1200 =
      appFirstMsg ∧
    appFirstMsg.currentState = App.AuthState.waiting ∧
    appFirstMsg.statusText = "first" := by
  decide

/-- C6 (amended): a request within the fixed 300 ms debounce window is
suppressed and the first of two requests inside the window wins (the
displayed message stays the first one) — WITHOUT any exception: a
transition into Authenticated requested inside the window is suppressed
exactly like any other. -/
theorem claim_C6 (s : App.State) (ns1 ns2 : App.AuthState) (m1 hi1 m2 hi2 : String)
    (t1 t2 : Int) (a : App.State) (m hi : String) (now : Int)
    (hauth : ¬s.currentState = App.AuthState.authenticated)
    (helapsed : 300 ≤ t1 - s.lastUIUpdate)
    (hm1 : ¬m1 = "")
    (hwin : t2 - t1 < 300)
    (hsup : now - a.lastUIUpdate < 300) :
    (App.updateUI s ns1 m1 hi1 t1).statusText = m1 ∧
    (App.updateUI s ns1 m1 hi1 t1).currentState = ns1 ∧
    App.updateUI (App.updateUI s ns1 m1 hi1 t1) ns2 m2 hi2 t2 =
      App.updateUI s ns1 m1 hi1 t1 ∧
    App.updateUI a App.AuthState.authenticated m hi now = a := by
  obtain ⟨hp, htxt, hts⟩ := updateUI_applied s ns1 m1 hi1 t1 hauth (not_lt.mpr helapsed)
  exact ⟨by rw [htxt, if_neg hm1], hp,
    updateUI_debounced _ ns2 m2 hi2 t2 (by rw [hts]; omega),
    updateUI_debounced a _ m hi now hsup⟩

/-- C6 (witness): the first-wins scenario at the fresh app.js state
(requests at 1000 and 1100) and the suppressed Authenticated transition
at time 1200 against a last update at 1000. -/
theorem claim_C6_witness :
    (App.updateUI appReady App.AuthState.analyzing "Verifying" "keep still"
        1000).statusText = "Verifying" ∧
    (App.updateUI appReady App.AuthState.analyzing "Verifying" "keep still"
        1000).currentState = App.AuthState.analyzing ∧
    App.updateUI
        (App.updateUI appReady App.AuthState.analyzing "Verifying" "keep still" 1000)
        App.AuthState.waiting "second" "" 1100 =
      App.updateUI appReady App.AuthState.analyzing "Verifying" "keep still" 1000 ∧
    App.updateUI appFirstMsg App.AuthState.authenticated "Welcome back" "" 1200 =
      appFirstMsg :=
  claim_C6 appReady App.AuthState.analyzing App.AuthState.waiting "Verifying"
    "keep still" "second" "" 1000 1100 appFirstMsg "Welcome back" "" 1200
    (by decide) (by decide) (by decide) (by decide) (by decide)

/-- C7: a `DetectionResult` with no `faceRect` is classified as the
no-face verdict — `checkFacePosition` returns position-invalid with the
message "No face detected" — and `calculateHeadSizeRatio` returns 0;
both are total functions, so no error is raised. -/
theorem claim_C7 (ovalData : App.Rect) :
    App.checkFacePosition ovalData none =
      { isValid := false, message := "No face detected" } ∧
    App.calculateHeadSizeRatio ovalData none = 0 :=
  ⟨rfl, rfl⟩

/-- C7 (witness): the no-face classification at a concrete oval. -/
theorem claim_C7_witness :
    App.checkFacePosition ⟨100, 50, 200, 300⟩ none =
      { isValid := false, message := "No face detected" } ∧
    App.calculateHeadSizeRatio ⟨100, 50, 200, 300⟩ none = 0 :=
  claim_C7 ⟨100, 50, 200, 300⟩

/-- C8 (counterexample): in app.js, a capture failure in a due cycle
(running, not processing, interval elapsed, debounce elapsed) DOES
transition the session phase to ERROR — the catch block of
`processFrame` (lines 579-588) resets `framesCollected` and applies the
ERROR UI — contradicting the claim that the phase does not transition to
Error on a capture failure. -/
theorem claim_C8_cex :
    appMid.currentState = App.AuthState.waiting ∧
    appMid.framesCollected = 2 ∧
    (App.processFrame appMid App.CaptureOutcome.failure 1000).1.currentState =
      App.AuthState.error ∧
    (App.processFrame appMid App.CaptureOutcome.failure 1000).1.framesCollected = 0 := by
  decide

/-- C8 (amended): on a capture failure in a due cycle nothing is sent to
the remote service and a retry is scheduled (after `RETRY_DELAY`), and
the part_000 null-capture path sends nothing, schedules a retry and
leaves phase and counter unchanged; but in app.js the catch path resets
`framesCollected` to 0 and — whenever the 300 ms UI debounce allows —
transitions the phase to ERROR. -/
theorem claim_C8 (s : App.State) (now : Int) (p : Part0.State)
    (hrun : s.isRunning = true) (hproc : s.isProcessing = false)
    (hgap : App.MIN_FRAME_INTERVAL ≤ now - s.lastProcessedTime)
    (hna : ¬s.currentState = App.AuthState.authenticated) :
    (App.processFrame s App.CaptureOutcome.failure now).2.sentToServer = false ∧
    (App.processFrame s App.CaptureOutcome.failure now).2.scheduledDelay =
      some App.RETRY_DELAY ∧
    (App.processFrame s App.CaptureOutcome.failure now).1.framesCollected = 0 ∧
    (300 ≤ now - s.lastUIUpdate →
      (App.processFrame s App.CaptureOutcome.failure now).1.currentState =
        App.AuthState.error) ∧
    (Part0.cycleCaptureNull p).2 = false ∧
    (Part0.cycleCaptureNull p).1.currentState = p.currentState ∧
    (Part0.cycleCaptureNull p).1.liveFrameCount = p.liveFrameCount ∧
    (Part0.cycleCaptureNull p).1.loopActive = true := by
  unfold App.processFrame
  rw [hrun, hproc]
  simp only [Bool.not_true, Bool.false_or, Bool.false_eq_true, if_false]
  rw [if_neg (not_lt.mpr hgap)]
  unfold App.updateUI
  refine ⟨?_, ?_, ?_, ?_, rfl, rfl, rfl, rfl⟩
  · split_ifs <;> rfl
  · split_ifs <;> simp_all
  · split_ifs <;> rfl
  · intro hui
    split_ifs <;> simp_all
    omega

/-- C8 (witness): the amended statement at the mid-run app.js state, a
due cycle at time 1000, and the initial part_000 state. -/
theorem claim_C8_witness :
    (App.processFrame appMid App.CaptureOutcome.failure 1000).2.sentToServer = false ∧
    (App.processFrame appMid App.CaptureOutcome.failure 1000).2.scheduledDelay =
      some App.RETRY_DELAY ∧
    (App.processFrame appMid App.CaptureOutcome.failure 1000).1.framesCollected = 0 ∧
    (App.processFrame appMid App.CaptureOutcome.failure 1000).1.currentState =
      App.AuthState.error ∧
    (Part0.cycleCaptureNull Part0.initState).2 = false ∧
    (Part0.cycleCaptureNull Part0.initState).1.currentState =
      Part0.initState.currentState ∧
    (Part0.cycleCaptureNull Part0.initState).1.liveFrameCount =
      Part0.initState.liveFrameCount ∧
    (Part0.cycleCaptureNull Part0.initState).1.loopActive = true :=
  ⟨(claim_C8 appMid 1000 Part0.initState rfl rfl (by decide) (by decide)).1,
    (claim_C8 appMid 1000 Part0.initState rfl rfl (by decide) (by decide)).2.1,
    (claim_C8 appMid 1000 Part0.initState rfl rfl (by decide) (by decide)).2.2.1,
    (claim_C8 appMid 1000 Part0.initState rfl rfl (by decide) (by decide)).2.2.2.1
      (by decide),
    (claim_C8 appMid 1000 Part0.initState rfl rfl (by decide) (by decide)).2.2.2.2.1,
    (claim_C8 appMid 1000 Part0.initState rfl rfl (by decide) (by decide)).2.2.2.2.2.1,
    (claim_C8 appMid 1000 Part0.initState rfl rfl (by decide)
      (by decide)).2.2.2.2.2.2.1,
    (claim_C8 appMid 1000 Part0.initState rfl rfl (by decide)
      (by decide)).2.2.2.2.2.2.2⟩

/-- C9 (counterexample): a part_000 run that reaches AUTHENTICATED (the
fifth live frame) never stops the tracks of the camera stream —
`streamStopped` is still false after the authenticating transition, so
not every execution path reaching Authenticated releases the camera. -/
theorem claim_C9_cex :
    part0Count4b.streamStopped = false ∧
    (Part0.updateFacePosition part0Count4b live09 1000).currentState =
      Part0.AuthState.authenticated ∧
    (Part0.updateFacePosition part0Count4b live09 1000).streamStopped = false := by
  decide

/-- C9 (amended): in app.js, `handleSuccessfulAuthentication` (the one
path into AUTHENTICATED) stops the tracks of the held camera stream,
and running it a second time on the already-released stream leaves the
tracks stopped (release is idempotent); in part_000, however, NO
transition of `updateFacePosition` — including the authenticating one —
ever stops the stream. -/
theorem claim_C9 (s : App.State) (name : String) (now : Int)
    (p : Part0.State) (r : Part0.ServerResult) (t : Int)
    (hname : ¬name = "") (hstream : s.hasStream = true) :
    (App.handleSuccessfulAuthentication s name now).streamStopped = true ∧
    (App.handleSuccessfulAuthentication
        (App.handleSuccessfulAuthentication s name now) name now).streamStopped = true ∧
    (Part0.updateFacePosition p r t).streamStopped = p.streamStopped := by
  have step : ∀ (u : App.State), u.hasStream = true →
      (App.handleSuccessfulAuthentication u name now).streamStopped = true ∧
      (App.handleSuccessfulAuthentication u name now).hasStream = true := by
    intro u hu
    unfold App.handleSuccessfulAuthentication
    rw [if_neg hname]
    have h2 : (App.updateUI { u with isRunning := false, isProcessing := false }
        App.AuthState.authenticated
        ("Welcome, " ++ (name.splitOn " ").headD "" ++ "!") "" now).hasStream = true := by
      rw [updateUI_hasStream]; exact hu
    rw [if_pos h2]
    exact ⟨rfl, h2⟩
  obtain ⟨h1, h1s⟩ := step s hstream
  obtain ⟨h2, _⟩ := step _ h1s
  refine ⟨h1, h2, ?_⟩
  unfold Part0.updateFacePosition Part0.updateFacePositionWith
  split_ifs <;> rfl

/-- C9 (witness): the amended statement at the fresh app.js session with
a recognized name, and a live verdict against the initial part_000
state. -/
theorem claim_C9_witness :
    (App.handleSuccessfulAuthentication appReady "Ada Lovelace" 5000).streamStopped =
      true ∧
    (App.handleSuccessfulAuthentication
        (App.handleSuccessfulAuthentication appReady "Ada Lovelace" 5000)
        "Ada Lovelace" 5000).streamStopped = true ∧
    (Part0.updateFacePosition Part0.initState live08 700).streamStopped =
      Part0.initState.streamStopped :=
  claim_C9 appReady "Ada Lovelace" 5000 Part0.initState live08 700
    (by decide) rfl

/-- C10: in app.js, in any due cycle (running, not re-entered, frame
interval elapsed) where `captureFrame` succeeds, `processFrame` does
nothing further: it sends nothing to the remote service, schedules no
next cycle, leaves `framesCollected`, `currentState` and
`lastProcessedTime` unchanged, and leaves `isProcessing` stuck at true —
the whole transport / state-machine body is commented out, so the
capture loop silently halts after the first successful capture. -/
theorem claim_C10 (s : App.State) (now : Int)
    (hrun : s.isRunning = true) (hproc : s.isProcessing = false)
    (hgap : App.MIN_FRAME_INTERVAL ≤ now - s.lastProcessedTime) :
    App.processFrame s App.CaptureOutcome.success now =
      ({ s with isProcessing := true },
        { sentToServer := false, scheduledDelay := none }) := by
  unfold App.processFrame
  rw [hrun, hproc]
  simp only [Bool.not_true, Bool.false_or, Bool.false_eq_true, if_false]
  rw [if_neg (not_lt.mpr hgap)]

/-- C10 (witness): the silent halt at the fresh app.js session with a
successful capture at time 1000. -/
theorem claim_C10_witness :
    App.processFrame appReady App.CaptureOutcome.success 1000 =
      ({ appReady with isProcessing := true },
        { sentToServer := false, scheduledDelay := none }) :=
  claim_C10 appReady 1000 rfl rfl (by decide)
